import Mathlib

/-!
Shallow embedding of the DP-100 course notebooks
(linuxacademy/course-dp100-azure-data-scientist-associate).

The repository consists of four notebooks: a batch-inferencing pipeline
notebook (writes `batch_diabetes.py`), a telemetry notebook (writes
`score_diabetes.py`), a hyperdrive notebook (writes `diabetes_training.py`),
and a data-drift notebook. The definitions below embed, from the source:
the `run`/`init` functions of the two entry scripts, the compute-target
assignment cells, the target-data generation loop of the drift notebook,
and inventories of the repository's try/except blocks, code cells,
drift-monitor configuration and ParallelRunConfig parameters.
-/

namespace DP100

/-! ## The batch-scoring entry script `batch_diabetes.py` -/

/-- Embedding of `os.path.basename` for POSIX paths: the part of the path
after the last `/` (empty when the path ends in a slash). -/
def basename (p : String) : String :=
  String.mk ((p.data.reverse.takeWhile fun c => c ≠ '/').reverse)

/-- Library calls made by the entry script, used to trace how many calls
each function issues. -/
inductive LibCall : Type
  | getModelPath (modelName : String)
  | joblibLoad
  | genfromtxt (file : String)
  | predictCall
  deriving DecidableEq, Repr

/-- Trace of library calls made by `init` in `batch_diabetes.py`:
`Model.get_model_path('diabetes_model')` followed by `joblib.load`. -/
def initTrace : List LibCall :=
  [LibCall.getModelPath "diabetes_model", LibCall.joblibLoad]

/-- Trace of library calls made by `run` in `batch_diabetes.py`: the loop
`for f in mini_batch` calls `np.genfromtxt(f, ...)` and then
`model.predict(...)` on each iteration. -/
def batchRunTrace (mini_batch : List String) : List LibCall :=
  mini_batch.foldl (fun t f => t ++ [LibCall.genfromtxt f, LibCall.predictCall]) []

/-- Count of `model.predict` calls in a trace. -/
def countPredicts (t : List LibCall) : Nat :=
  (t.filter (· = LibCall.predictCall)).length

/-- Count of `joblib.load` (model-load) calls in a trace. -/
def countModelLoads (t : List LibCall) : Nat :=
  (t.filter (· = LibCall.joblibLoad)).length

/-- Embedding of `run(mini_batch)` from `batch_diabetes.py`.  The file
system (`np.genfromtxt` reading one comma-separated row) is abstracted by
`readData : String → Row`, and the scikit-learn model by
`predictBatch : List Row → List Lbl` (`model.predict` maps a batch of rows
to a batch of labels; the script calls it on the one-row batch
`data.reshape(1, -1)`).  The loop appends
`"{}: {}".format(os.path.basename(f), prediction[0])` for each file `f`;
`prediction[0]` raises `IndexError` when the prediction array is empty,
which the `Option` models. -/
def batchRun {Row Lbl : Type} (readData : String → Row)
    (predictBatch : List Row → List Lbl) (showLbl : Lbl → String)
    (mini_batch : List String) : Option (List String) :=
  mini_batch.foldl
    (fun acc f =>
      acc.bind fun resultList =>
        (predictBatch [readData f]).head?.map fun p =>
          resultList ++ [basename f ++ ": " ++ showLbl p])
    (some [])

/-! ## Helper lemmas about the batch-run loop -/

lemma batchRunTrace_foldl (mini_batch : List String) (acc : List LibCall) :
    mini_batch.foldl (fun t f => t ++ [LibCall.genfromtxt f, LibCall.predictCall]) acc
      = acc ++ mini_batch.flatMap (fun f => [LibCall.genfromtxt f, LibCall.predictCall]) := by
  induction mini_batch generalizing acc with
  | nil => simp
  | cons f fs ih => simp [List.foldl, ih, List.append_assoc]

lemma batchRunTrace_eq (mini_batch : List String) :
    batchRunTrace mini_batch
      = mini_batch.flatMap (fun f => [LibCall.genfromtxt f, LibCall.predictCall]) := by
  simpa using batchRunTrace_foldl mini_batch []

lemma countPredicts_batchRunTrace (mini_batch : List String) :
    countPredicts (batchRunTrace mini_batch) = mini_batch.length := by
  rw [batchRunTrace_eq]
  induction mini_batch with
  | nil => rfl
  | cons f fs ih =>
      simp only [List.flatMap_cons, countPredicts, List.filter_append] at *
      simp [ih, List.filter]

lemma batchRun_foldl {Row Lbl : Type} [Inhabited Lbl] (readData : String → Row)
    (predictBatch : List Row → List Lbl) (showLbl : Lbl → String)
    (h : ∀ xs, (predictBatch xs).length = xs.length)
    (mini_batch : List String) (acc : List String) :
    mini_batch.foldl
      (fun acc f =>
        acc.bind fun resultList =>
          (predictBatch [readData f]).head?.map fun p =>
            resultList ++ [basename f ++ ": " ++ showLbl p])
      (some acc)
      = some (acc ++ mini_batch.map fun f =>
          basename f ++ ": " ++ showLbl ((predictBatch [readData f]).headI)) := by
  induction mini_batch generalizing acc with
  | nil => simp
  | cons f fs ih =>
      have hlen : (predictBatch [readData f]).length = 1 := h [readData f]
      obtain ⟨p, hp⟩ : ∃ p, predictBatch [readData f] = [p] := by
        match hval : predictBatch [readData f] with
        | [] => rw [hval] at hlen; simp at hlen
        | [p] => exact ⟨p, rfl⟩
        | p :: q :: r => rw [hval] at hlen; simp at hlen
      rw [List.foldl_cons]
      have hstep :
          (Option.some acc).bind (fun resultList =>
            (predictBatch [readData f]).head?.map fun p =>
              resultList ++ [basename f ++ ": " ++ showLbl p])
            = some (acc ++ [basename f ++ ": " ++ showLbl p]) := by
        rw [hp]; rfl
      rw [hstep, ih]
      simp [hp, List.append_assoc]

/-! ## The web-service entry script `score_diabetes.py` -/

/-- Embedding of Python list indexing `xs[i]` with an `int` index: a
non-negative index is in bounds below the length, and a negative index `i`
means `xs[len(xs) + i]`; out-of-range indexing raises `IndexError`,
modelled by `none`. -/
def pythonGet {α : Type} (xs : List α) (i : Int) : Option α :=
  if 0 ≤ i then
    if i < (xs.length : Int) then xs.get? i.toNat else none
  else
    if 0 ≤ i + (xs.length : Int) then xs.get? (i + (xs.length : Int)).toNat else none

/-- The class-name table of `run` in `score_diabetes.py`:
`classnames = ['not-diabetic', 'diabetic']`. -/
def classnames : List String := ["not-diabetic", "diabetic"]

/-- The `IndexError` message raised by out-of-range Python list indexing. -/
def indexErrorMsg : String := "IndexError: list index out of range"

/-- Embedding of `json.dumps` on a list of plain ASCII strings (the class
names contain no characters that `json.dumps` escapes). -/
def jsonEncodeStrings (xs : List String) : String :=
  "[" ++ String.intercalate ", " (xs.map fun s => "\"" ++ s ++ "\"") ++ "]"

/-- Embedding of the loop of `run` in `score_diabetes.py`:
`predicted_classes = []` followed by
`for prediction in predictions: predicted_classes.append(classnames[prediction])`,
where an out-of-range index raises and aborts the loop. -/
def appendClasses (predictions : List Int) : Except String (List String) :=
  predictions.foldl
    (fun acc p =>
      acc.bind fun predicted_classes =>
        match pythonGet classnames p with
        | some c => Except.ok (predicted_classes ++ [c])
        | none => Except.error indexErrorMsg)
    (Except.ok [])

/-- Embedding of `run(raw_data)` from `score_diabetes.py`.  JSON decoding
of the request body (`json.loads(raw_data)['data']` and `np.array`) is
abstracted to the decoded row list `rows`, and the scikit-learn model by
`predict : List Row → List Int` (`model.predict` on the whole row batch).
The function maps each prediction through `classnames` and returns
`json.dumps(predicted_classes)`. -/
def scoreRun {Row : Type} (predict : List Row → List Int) (rows : List Row) :
    Except String String :=
  (appendClasses (predict rows)).map jsonEncodeStrings

/-! ## Helper lemmas about the scoring loop -/

lemma pythonGet_classnames_isSome (p : Int) :
    (pythonGet classnames p).isSome = true ↔ (-2 ≤ p ∧ p ≤ 1) := by
  have hlen : (classnames.length : Int) = 2 := by rfl
  unfold pythonGet
  split_ifs with h0 hlt hneg
  · rw [hlen] at hlt
    have hb : p.toNat < classnames.length := by omega
    rw [List.get?_eq_get hb]
    simp only [Option.isSome_some, true_iff]
    omega
  · rw [hlen] at hlt
    simp only [Option.isSome_none, Bool.false_eq_true, false_iff, not_and, not_le]
    omega
  · rw [hlen] at hneg
    rw [hlen]
    have hb : (p + 2).toNat < classnames.length := by omega
    rw [List.get?_eq_get hb]
    simp only [Option.isSome_some, true_iff]
    omega
  · rw [hlen] at hneg
    simp only [Option.isSome_none, Bool.false_eq_true, false_iff, not_and, not_le]
    omega

lemma appendClasses_foldl_ok (predictions : List Int) (acc : List String)
    (h : ∀ p ∈ predictions, -2 ≤ p ∧ p ≤ 1) :
    predictions.foldl
      (fun acc p =>
        acc.bind fun predicted_classes =>
          match pythonGet classnames p with
          | some c => Except.ok (predicted_classes ++ [c])
          | none => Except.error indexErrorMsg)
      (Except.ok acc)
      = Except.ok (acc ++ predictions.map fun p => (pythonGet classnames p).getD "") := by
  induction predictions generalizing acc with
  | nil => simp
  | cons p ps ih =>
      obtain ⟨c, hc⟩ : ∃ c, pythonGet classnames p = some c := by
        have := (pythonGet_classnames_isSome p).2 (h p (by simp))
        exact Option.isSome_iff_exists.1 this
      rw [List.foldl_cons]
      have hstep :
          (Except.ok (ε := String) acc).bind (fun predicted_classes =>
            match pythonGet classnames p with
            | some c => Except.ok (predicted_classes ++ [c])
            | none => Except.error indexErrorMsg)
            = Except.ok (acc ++ [c]) := by
        simp only [Except.bind]; rw [hc]
      rw [hstep, ih _ (fun q hq => h q (by simp [hq]))]
      simp [hc, List.append_assoc]

lemma appendClasses_foldl_error (predictions : List Int) (e : String) :
    predictions.foldl
      (fun acc p =>
        acc.bind fun predicted_classes =>
          match pythonGet classnames p with
          | some c => Except.ok (predicted_classes ++ [c])
          | none => Except.error indexErrorMsg)
      (Except.error e)
      = Except.error e := by
  induction predictions with
  | nil => rfl
  | cons p ps ih => simpa using ih

lemma appendClasses_foldl_bad (predictions : List Int) (acc : List String)
    (h : ∃ p ∈ predictions, p < -2 ∨ 1 < p) :
    predictions.foldl
      (fun acc p =>
        acc.bind fun predicted_classes =>
          match pythonGet classnames p with
          | some c => Except.ok (predicted_classes ++ [c])
          | none => Except.error indexErrorMsg)
      (Except.ok acc)
      = Except.error indexErrorMsg := by
  induction predictions generalizing acc with
  | nil => simp at h
  | cons q qs ih =>
      obtain ⟨p, hp, hout⟩ := h
      rcases hq' : pythonGet classnames q with _ | c
      · rw [List.foldl_cons]
        have hstep :
            (Except.ok (ε := String) acc).bind
              (fun predicted_classes =>
                match pythonGet classnames q with
                | some c => Except.ok (predicted_classes ++ [c])
                | none => Except.error indexErrorMsg)
              = Except.error indexErrorMsg := by
          simp only [Except.bind]; rw [hq']
        rw [hstep, appendClasses_foldl_error]
      · have hqin : -2 ≤ q ∧ q ≤ 1 := by
          have := (pythonGet_classnames_isSome q).1 (by rw [hq']; rfl)
          exact this
        have hpqs : p ∈ qs := by
          rcases List.mem_cons.1 hp with hpq | hpqs
          · subst hpq; omega
          · exact hpqs
        rw [List.foldl_cons]
        have hstep :
            (Except.ok (ε := String) acc).bind
              (fun predicted_classes =>
                match pythonGet classnames q with
                | some c => Except.ok (predicted_classes ++ [c])
                | none => Except.error indexErrorMsg)
              = Except.ok (acc ++ [c]) := by
          simp only [Except.bind]; rw [hq']
        rw [hstep]
        exact ih _ ⟨p, hpqs, hout⟩

lemma appendClasses_error_iff (predictions : List Int) :
    (∃ e, appendClasses predictions = Except.error e)
      ↔ ∃ p ∈ predictions, p < -2 ∨ 1 < p := by
  constructor
  · intro ⟨e, he⟩
    by_contra hall
    push_neg at hall
    have hbound : ∀ p ∈ predictions, -2 ≤ p ∧ p ≤ 1 := by
      intro p hp
      have := hall p hp
      omega
    rw [appendClasses, appendClasses_foldl_ok predictions [] hbound] at he
    exact Except.noConfusion he
  · intro h
    exact ⟨indexErrorMsg, appendClasses_foldl_bad predictions [] h⟩

/-! ## The compute-target assignment cells

Each of the batch-pipeline notebook, the hyperdrive notebook and the drift
notebook has a cell that does
`try: cluster = ComputeTarget(workspace=ws, name=cluster_name) ... except ComputeTargetException: ...`.
In the batch-pipeline and hyperdrive notebooks the `try` body additionally
calls `ws.update(image_build_compute=cluster_name)`; in the drift notebook
it only prints.  The workspace state is modelled with the fields these
notebooks can touch. -/

/-- State of the Azure ML workspace as visible to these notebooks. -/
structure WorkspaceState : Type where
  clusters : List String
  imageBuildCompute : Option String
  registeredDatasets : List String
  registeredModels : List String
  deriving DecidableEq, Repr

/-- Embedding of one compute-target assignment cell.
`ComputeTarget(workspace=ws, name=clusterName)` raises
`ComputeTargetException` when no cluster of that name exists, in which case
the `except` branch only prints; otherwise the `try` body continues and,
when `withUpdate` is set (batch-pipeline and hyperdrive notebooks), calls
`ws.update(image_build_compute=clusterName)`.  The result is the updated
workspace state paired with the local cluster handle (`none` when the
lookup raised). -/
def assignComputeCell (withUpdate : Bool) (clusterName : String)
    (ws : WorkspaceState) : WorkspaceState × Option String :=
  if ws.clusters.contains clusterName then
    (if withUpdate then
        { ws with imageBuildCompute := some clusterName }
      else ws,
     some clusterName)
  else
    (ws, none)

/-- The three compute-target assignment cells of the repository:
`(withUpdate, cluster_name)` for the batch-pipeline notebook
(`"acaml-****"`, with `ws.update`), the hyperdrive notebook
(`"ac-aml-cluster"`, with `ws.update`) and the drift notebook
(`"ac-aml-cluster"`, without `ws.update`). -/
def computeAssignCells : List (Bool × String) :=
  [(true, "acaml-****"), (true, "ac-aml-cluster"), (false, "ac-aml-cluster")]

/-! ## Inventory of the try/except blocks -/

/-- Operation guarded by a try/except block in this repository. -/
inductive GuardedOp : Type
  | datasetRegister
  | computeClusterCheck
  deriving DecidableEq, Repr

/-- Exception class named by the `except` clause. -/
inductive CaughtExc : Type
  | anyException
  | computeTargetException
  deriving DecidableEq, Repr

/-- One try/except block: which notebook it is in, what operation the
`try` body performs, which exception class is caught, the cluster name
looked up (for compute-cluster checks), whether the `try` body calls
`ws.update(image_build_compute=...)`, and the message printed on
success. -/
structure TryExceptBlock : Type where
  notebook : String
  guarded : GuardedOp
  caught : CaughtExc
  clusterName : Option String
  updatesWorkspace : Bool
  successMessage : Option String
  deriving DecidableEq, Repr

/-- Whether two try/except blocks are verbatim the same code (all parts of
the block equal; the containing notebook is not part of the text). -/
def sameBlockText (a b : TryExceptBlock) : Bool :=
  a.guarded == b.guarded && a.caught == b.caught
    && a.clusterName == b.clusterName && a.updatesWorkspace == b.updatesWorkspace
    && a.successMessage == b.successMessage

/-- All try/except blocks of the repository, in source order: the
batch-pipeline notebook guards `batch_data_set.register` (catching
`Exception`) and the compute-cluster check; the telemetry notebook guards
`data_set.register`; the hyperdrive notebook guards
`tab_data_set.register` and the compute-cluster check; the drift notebook
guards the compute-cluster check, without `ws.update` and with a different
message. -/
def repoTryExcepts : List TryExceptBlock :=
  [⟨"batch-pipeline", GuardedOp.datasetRegister, CaughtExc.anyException,
      none, false, none⟩,
   ⟨"batch-pipeline", GuardedOp.computeClusterCheck, CaughtExc.computeTargetException,
      some "acaml-****", true, some "Found existing cluster and using it."⟩,
   ⟨"telemetry", GuardedOp.datasetRegister, CaughtExc.anyException,
      none, false, none⟩,
   ⟨"hyperdrive", GuardedOp.datasetRegister, CaughtExc.anyException,
      none, false, none⟩,
   ⟨"hyperdrive", GuardedOp.computeClusterCheck, CaughtExc.computeTargetException,
      some "ac-aml-cluster", true, some "Found existing cluster and using it."⟩,
   ⟨"drift", GuardedOp.computeClusterCheck, CaughtExc.computeTargetException,
      some "ac-aml-cluster", false, some "Found existing cluster, use it."⟩]

/-! ## Inventory of the code cells -/

/-- One code cell of a notebook: whether its code (including any script
text it writes with a writefile magic) calls into the `azureml` platform
SDK, and whether it contains an author-written `for` loop. -/
structure CodeCell : Type where
  notebook : String
  idx : Nat
  callsPlatformSdk : Bool
  hasAuthorLoop : Bool
  deriving DecidableEq, Repr

/-- All code cells of the four notebooks, in source order.
Batch-pipeline notebook: workspace connect; train and register; simulate
sample data (loops over `ws.datastores` and `range(100)`); compute target;
create folder (`os` only); write `batch_diabetes.py` (its `run` has the
per-file loop); environment; ParallelRunConfig and step; submit; retrieve
outputs (`os.walk` loop).
Telemetry notebook: workspace connect; train and register; create folder
(`os` only); write `score_diabetes.py` (per-prediction loop); conda
environment file; deploy; enable app insights; endpoint; request via
`requests` (loop over results, no `azureml` call).
Hyperdrive notebook: workspace connect; dataset; create folder (`os`
only); write `diabetes_training.py`; compute target; hyperdrive submit;
best-run report (loop over child runs); register best model (loops over
registered models).
Drift notebook: `pip show` check; workspace connect; baseline dataset;
target-data generation (the `weeknos` loop, plus `upload_files` and
dataset registration); compute target; drift detector; backfill; metrics
printing loop. -/
def repoCodeCells : List CodeCell :=
  [⟨"batch-pipeline", 0, true, false⟩,
   ⟨"batch-pipeline", 1, true, false⟩,
   ⟨"batch-pipeline", 2, true, true⟩,
   ⟨"batch-pipeline", 3, true, false⟩,
   ⟨"batch-pipeline", 4, false, false⟩,
   ⟨"batch-pipeline", 5, false, true⟩,
   ⟨"batch-pipeline", 6, true, false⟩,
   ⟨"batch-pipeline", 7, true, false⟩,
   ⟨"batch-pipeline", 8, true, false⟩,
   ⟨"batch-pipeline", 9, true, true⟩,
   ⟨"telemetry", 0, true, false⟩,
   ⟨"telemetry", 1, true, false⟩,
   ⟨"telemetry", 2, false, false⟩,
   ⟨"telemetry", 3, false, true⟩,
   ⟨"telemetry", 4, true, false⟩,
   ⟨"telemetry", 5, true, false⟩,
   ⟨"telemetry", 6, true, false⟩,
   ⟨"telemetry", 7, true, false⟩,
   ⟨"telemetry", 8, false, true⟩,
   ⟨"hyperdrive", 0, true, false⟩,
   ⟨"hyperdrive", 1, true, false⟩,
   ⟨"hyperdrive", 2, false, false⟩,
   ⟨"hyperdrive", 3, false, false⟩,
   ⟨"hyperdrive", 4, true, false⟩,
   ⟨"hyperdrive", 5, true, false⟩,
   ⟨"hyperdrive", 6, true, true⟩,
   ⟨"hyperdrive", 7, true, true⟩,
   ⟨"drift", 0, false, false⟩,
   ⟨"drift", 1, true, false⟩,
   ⟨"drift", 2, true, false⟩,
   ⟨"drift", 3, true, true⟩,
   ⟨"drift", 4, true, false⟩,
   ⟨"drift", 5, true, false⟩,
   ⟨"drift", 6, true, false⟩,
   ⟨"drift", 7, true, true⟩]

/-! ## The drift-monitor configuration -/

/-- Arguments of a `DataDriftDetector.create_from_datasets` call. -/
structure DriftMonitorConfig : Type where
  monitorName : String
  baselineDataset : String
  targetDataset : String
  computeTargetName : String
  frequency : String
  featureList : List String
  driftThreshold : ℚ
  latency : Nat
  deriving DecidableEq, Repr

/-- All `DataDriftDetector` configuration calls in the repository: the one
call in the drift notebook, passing the baseline and target registered
datasets, the compute target by its name string, `frequency='Week'`,
`feature_list=['Pregnancies', 'Age', 'BMI']`, `drift_threshold=.3` and
`latency=24`. -/
def driftConfigCalls : List DriftMonitorConfig :=
  [⟨"mslearn-diabates-drift", "diabetes baseline", "diabetes target",
      "ac-aml-cluster", "Week", ["Pregnancies", "Age", "BMI"], 3 / 10, 24⟩]

/-! ## The ParallelRunConfig of the batch-inference pipeline -/

/-- Arguments of the `ParallelRunConfig(...)` call in the batch-pipeline
notebook. -/
structure ParallelRunConfigArgs : Type where
  sourceDirectory : String
  entryScript : String
  miniBatchSize : String
  errorThreshold : Int
  outputAction : String
  nodeCount : Nat
  deriving DecidableEq, Repr

/-- The one `ParallelRunConfig` declared in the repository. -/
def parallelRunConfig : ParallelRunConfigArgs :=
  ⟨"batch_pipeline", "batch_diabetes.py", "5", 10, "append_row", 2⟩

/-! ## The target-data generation loop of the drift notebook -/

/-- A snapshot of the pandas dataframe loaded from `diabetes2.csv`, as
touched by the drift simulation: the `Pregnancies` column of integers, and
the `Age` and `BMI` columns kept abstract (they are transformed by
`round(Age * 1.2)` and `BMI * 1.1`, floating-point operations that the
claims do not depend on). -/
structure DriftFrame (A B : Type) : Type where
  pregnancies : List Int
  age : A
  bmi : B
  deriving Repr

/-- The week numbers iterated by the drift notebook:
`weeknos = reversed(range(6))`. -/
def weeknos : List Nat := (List.range 6).reverse

/-- Embedding of the target-data generation loop of the drift notebook.
`today` is `dt.date.today()` counted in days; each iteration computes
`data_date = today - dt.timedelta(weeks=weekno)`, then mutates the same
dataframe in place (`data['Pregnancies'] = data['Pregnancies'] + 1`, with
`ageStep` and `bmiStep` standing for the `Age` and `BMI` updates), then
writes the file for `data_date` and appends it to `file_paths`.  The
result is the list of written files: date paired with the dataframe
snapshot written. -/
def generateTargetFiles {A B : Type} (today : Int) (ageStep : A → A)
    (bmiStep : B → B) (df0 : DriftFrame A B) : List (Int × DriftFrame A B) :=
  (weeknos.foldl
    (fun (st : DriftFrame A B × List (Int × DriftFrame A B)) weekno =>
      let dataDate : Int := today - 7 * (weekno : Int)
      let df : DriftFrame A B :=
        { pregnancies := st.1.pregnancies.map (· + 1),
          age := ageStep st.1.age,
          bmi := bmiStep st.1.bmi }
      (df, st.2 ++ [(dataDate, df)]))
    (df0, [])).2

/-! ## A helper lemma about composed column updates -/

lemma map_add_add (l : List Int) (a b : Int) :
    (l.map (· + a)).map (· + b) = l.map (· + (a + b)) := by
  rw [List.map_map]
  apply List.map_congr_left
  intro x _
  simp [Function.comp]
  ring

/-! ## Claim theorems -/

/-- C1, counterexample.  The claim that the only failure-handling logic is
a single try/except around the compute-cluster existence check, repeated
verbatim across the notebooks, is false: the repository's try/except
blocks include three around dataset registration, and the compute-cluster
blocks are not verbatim identical. -/
theorem c1_counterexample :
    ¬ (∀ b ∈ repoTryExcepts, b.guarded = GuardedOp.computeClusterCheck
        ∧ ∀ b2 ∈ repoTryExcepts, sameBlockText b b2 = true) := by
  decide

/-- C1, amended.  The repository's failure handling consists of six
try/except blocks: three guard dataset registration, catch any `Exception`
and do not touch the workspace, and three guard the compute-cluster
existence check and catch `ComputeTargetException`; the compute-cluster
blocks are similar but not verbatim identical (two call `ws.update`, one
does not, and cluster names and messages differ). -/
theorem c1_amended :
    (repoTryExcepts.filter fun b => b.guarded == GuardedOp.datasetRegister).length = 3
    ∧ (repoTryExcepts.filter fun b => b.guarded == GuardedOp.computeClusterCheck).length = 3
    ∧ (repoTryExcepts.all fun b =>
        (b.guarded == GuardedOp.datasetRegister && b.caught == CaughtExc.anyException
            && !b.updatesWorkspace)
        || (b.guarded == GuardedOp.computeClusterCheck
            && b.caught == CaughtExc.computeTargetException)) = true
    ∧ ((repoTryExcepts.filter fun b => b.guarded == GuardedOp.computeClusterCheck).any
        fun b =>
          (repoTryExcepts.filter fun b2 => b2.guarded == GuardedOp.computeClusterCheck).any
            fun b2 => !sameBlockText b b2) = true := by
  decide

/-- C2, counterexample.  The claim that the compute-target lookup cells
perform no write to the workspace is false: the batch-pipeline notebook's
cell (the first entry of `computeAssignCells`) calls
`ws.update(image_build_compute=cluster_name)` when the cluster exists, so
the workspace state changes. -/
theorem c2_counterexample :
    ¬ (∀ c ∈ computeAssignCells, ∀ ws : WorkspaceState,
        (assignComputeCell c.1 c.2 ws).1 = ws) := by
  intro h
  have := h (true, "acaml-****") (by decide)
    ⟨["acaml-****"], none, [], []⟩
  simp [assignComputeCell] at this

/-- C2, amended.  Each compute-target assignment cell only looks up the
cluster by name and binds the local handle; the drift notebook's cell
(`withUpdate = false`) changes no workspace state at all, while the
batch-pipeline and hyperdrive cells (`withUpdate = true`) additionally set
the workspace's `image_build_compute` property to the cluster name when
the cluster exists; clusters, registered datasets and registered models
are unchanged in every case. -/
theorem c2_amended (c : Bool × String) (_hc : c ∈ computeAssignCells)
    (ws : WorkspaceState) :
    (c.1 = false → (assignComputeCell c.1 c.2 ws).1 = ws)
    ∧ (assignComputeCell c.1 c.2 ws).1.clusters = ws.clusters
    ∧ (assignComputeCell c.1 c.2 ws).1.registeredDatasets = ws.registeredDatasets
    ∧ (assignComputeCell c.1 c.2 ws).1.registeredModels = ws.registeredModels
    ∧ (assignComputeCell c.1 c.2 ws).1.imageBuildCompute
        = (if c.1 && ws.clusters.contains c.2 then some c.2 else ws.imageBuildCompute)
    ∧ (assignComputeCell c.1 c.2 ws).2
        = (if ws.clusters.contains c.2 then some c.2 else none) := by
  unfold assignComputeCell
  rcases c with ⟨u, n⟩
  cases u <;> split_ifs <;> simp_all

/-- C2, witness for the amended theorem at the drift notebook's cell and a
concrete workspace. -/
theorem c2_amended_witness :
    (assignComputeCell false "ac-aml-cluster"
        ⟨["ac-aml-cluster"], none, ["diabetes baseline"], ["diabetes_model"]⟩).1
      = ⟨["ac-aml-cluster"], none, ["diabetes baseline"], ["diabetes_model"]⟩ := by
  have h := c2_amended (false, "ac-aml-cluster") (by decide)
    ⟨["ac-aml-cluster"], none, ["diabetes baseline"], ["diabetes_model"]⟩
  exact h.1 rfl

/-- C5, counterexample.  The claim that `run` makes exactly one library
prediction call for its whole mini-batch is false: on a two-file
mini-batch the loop calls `model.predict` twice. -/
theorem c5_counterexample :
    countPredicts (batchRunTrace ["1.csv", "2.csv"]) = 2 ∧ (2 : Nat) ≠ 1 := by
  decide

/-- C5, amended.  `init` makes exactly one model-load call, `run` makes
exactly one library prediction call per file of its mini-batch (so
`mini_batch.length` calls in total, not one for the whole batch), and the
drift monitor is set up by exactly one configuration call. -/
theorem c5_amended (mini_batch : List String) :
    countModelLoads initTrace = 1
    ∧ countPredicts (batchRunTrace mini_batch) = mini_batch.length
    ∧ driftConfigCalls.length = 1 :=
  ⟨rfl, countPredicts_batchRunTrace mini_batch, rfl⟩

/-- C6, counterexample.  The claim that every code cell is a direct call
into the platform SDK and that the repository contains no original control
logic is false: the batch-pipeline notebook's folder-creation cell (index
4) calls no `azureml` API, and several cells contain author-written loops,
among them the entry-script cell (index 5, the per-file scoring loop) and
the drift notebook's target-data generation cell (index 3). -/
theorem c6_counterexample :
    ¬ (∀ c ∈ repoCodeCells, c.callsPlatformSdk = true ∧ c.hasAuthorLoop = false) := by
  decide

/-- C6, amended.  Of the 35 code cells, 8 make no call into the platform
SDK (local folder creation, entry-script writing, a `pip show` check and a
plain HTTP request) and 9 contain author-written `for` loops (sample-data
generation, the per-file scoring loop, the per-prediction class-mapping
loop, the drift-data generation loop and result-enumeration loops), so
some small original control logic exists; among them are the
batch-pipeline entry-script cell and the drift notebook's generation
cell. -/
theorem c6_amended :
    repoCodeCells.length = 35
    ∧ (repoCodeCells.filter fun c => !c.callsPlatformSdk).length = 8
    ∧ (repoCodeCells.filter fun c => c.hasAuthorLoop).length = 9
    ∧ CodeCell.mk "batch-pipeline" 5 false true ∈ repoCodeCells
    ∧ CodeCell.mk "drift" 3 true true ∈ repoCodeCells := by
  decide

/-- C7.  The drift detector is configured by the single
`DataDriftDetector.create_from_datasets` call of the drift notebook,
comparing the registered baseline and target datasets, passing the compute
target by its name string, `frequency='Week'`, the feature list
`['Pregnancies', 'Age', 'BMI']`, drift threshold `0.3` and latency `24`;
no other drift-configuration call exists in the repository. -/
theorem c7_drift_config :
    driftConfigCalls.length = 1
    ∧ (driftConfigCalls.map fun cfg =>
        (cfg.baselineDataset, cfg.targetDataset, cfg.computeTargetName,
          cfg.frequency, cfg.featureList, cfg.driftThreshold, cfg.latency))
      = [("diabetes baseline", "diabetes target", "ac-aml-cluster",
          "Week", ["Pregnancies", "Age", "BMI"], (3 : ℚ) / 10, 24)] := by
  constructor
  · rfl
  · simp [driftConfigCalls]

/-- C9.  The repository only declares the partitioning parameters of the
batch-inference pipeline (`mini_batch_size="5"`, `error_threshold=10`,
`output_action="append_row"`, `node_count=2`) in its `ParallelRunConfig`;
the entry script's `run` consumes its already-partitioned mini-batch as
given, reading and predicting each file exactly once in input order, with
no splitting, scheduling or retrying of its own. -/
theorem c9_parallel_run :
    parallelRunConfig.miniBatchSize = "5"
    ∧ parallelRunConfig.errorThreshold = 10
    ∧ parallelRunConfig.outputAction = "append_row"
    ∧ parallelRunConfig.nodeCount = 2
    ∧ ∀ mini_batch : List String,
        batchRunTrace mini_batch
          = mini_batch.flatMap fun f => [LibCall.genfromtxt f, LibCall.predictCall] :=
  ⟨rfl, rfl, rfl, rfl, batchRunTrace_eq⟩

/-- C3.  For every mini-batch of file paths, `run` of `batch_diabetes.py`
returns the list of the same length and order whose element for file `f`
is `basename(f) ++ ": " ++ p`, where `p` prints the model's prediction for
the single row read from `f`.  The hypothesis is scikit-learn's contract
that `model.predict` returns one prediction per input row. -/
theorem c3_batch_run (Row Lbl : Type) [Inhabited Lbl] (readData : String → Row)
    (predictBatch : List Row → List Lbl) (showLbl : Lbl → String)
    (mini_batch : List String)
    (hlen : ∀ xs, (predictBatch xs).length = xs.length) :
    batchRun readData predictBatch showLbl mini_batch
      = some (mini_batch.map fun f =>
          basename f ++ ": " ++ showLbl ((predictBatch [readData f]).headI)) := by
  unfold batchRun
  simpa using batchRun_foldl readData predictBatch showLbl hlen mini_batch []

/-- C3, witness: `run` on a concrete two-file mini-batch with a model that
predicts `1` for every row. -/
theorem c3_batch_run_witness :
    @batchRun String Nat id (fun xs => xs.map fun _ => 1) toString
        ["batch-data/1.csv", "2.csv"]
      = some ["1.csv: 1", "2.csv: 1"] := by
  have h := c3_batch_run String Nat id (fun xs => xs.map fun _ => 1) toString
    ["batch-data/1.csv", "2.csv"] (fun xs => by simp)
  rw [h]
  rfl

/-- C4, counterexample.  The claim that `classnames[prediction]` is in
bounds precisely when the prediction is 0 or 1, and that `run` raises for
any other prediction value, is false: Python list indexing accepts
negative indices, so for the prediction `-1` the indexing yields
`'diabetic'` and `run` returns normally instead of raising. -/
theorem c4_counterexample :
    pythonGet classnames (-1) = some "diabetic"
    ∧ ¬ ((-1 : Int) = 0 ∨ (-1 : Int) = 1)
    ∧ @scoreRun Unit (fun _ => [-1]) [()]
        = Except.ok (jsonEncodeStrings ["diabetic"]) := by
  refine ⟨by decide, by decide, ?_⟩
  rfl

/-- C4, amended.  The indexing `classnames[prediction]` is in bounds
precisely when the prediction lies between `-2` and `1` (Python list
indexing accepts negative indices); under the precondition that the model
returns only the binary labels 0 and 1, the error branch of `run` is
unreachable and `run` returns the JSON-encoded list mapping 0 to
`'not-diabetic'` and 1 to `'diabetic'`, with one class name per input row;
and `run` raises precisely when some prediction lies outside `[-2, 1]`. -/
theorem c4_amended {Row : Type} (predict : List Row → List Int) (rows : List Row) :
    (∀ p : Int, (pythonGet classnames p).isSome = true ↔ (-2 ≤ p ∧ p ≤ 1))
    ∧ ((∀ p ∈ predict rows, p = 0 ∨ p = 1) →
        scoreRun predict rows
          = Except.ok (jsonEncodeStrings ((predict rows).map fun p =>
              if p = 1 then "diabetic" else "not-diabetic")))
    ∧ ((∀ p ∈ predict rows, p = 0 ∨ p = 1) →
        (predict rows).length = rows.length →
        ∃ cs, appendClasses (predict rows) = Except.ok cs ∧ cs.length = rows.length)
    ∧ ((∃ e, scoreRun predict rows = Except.error e)
        ↔ ∃ p ∈ predict rows, p < -2 ∨ 1 < p) := by
  have hok : (∀ p ∈ predict rows, p = 0 ∨ p = 1) →
      appendClasses (predict rows)
        = Except.ok ((predict rows).map fun p =>
            if p = 1 then "diabetic" else "not-diabetic") := by
    intro hbin
    have hbound : ∀ p ∈ predict rows, -2 ≤ p ∧ p ≤ 1 := by
      intro p hp
      rcases hbin p hp with h | h <;> (subst h; omega)
    rw [appendClasses, appendClasses_foldl_ok (predict rows) [] hbound]
    simp only [List.nil_append]
    congr 1
    apply List.map_congr_left
    intro p hp
    rcases hbin p hp with h | h <;> subst h <;> rfl
  refine ⟨pythonGet_classnames_isSome, ?_, ?_, ?_⟩
  · intro hbin
    rw [scoreRun, hok hbin]
    rfl
  · intro hbin hlen
    exact ⟨_, hok hbin, by simpa using hlen⟩
  · rw [show (∃ e, scoreRun predict rows = Except.error e)
        ↔ (∃ e, appendClasses (predict rows) = Except.error e) from ?_]
    · exact appendClasses_error_iff (predict rows)
    · unfold scoreRun
      cases appendClasses (predict rows) <;> simp [Except.map]

/-- C4, witness for the amended theorem at a concrete binary-labelled
model and two rows. -/
theorem c4_amended_witness :
    @scoreRun (List Int) (fun rows => rows.map fun r => r.headI) [[1], [0]]
      = Except.ok (jsonEncodeStrings ["diabetic", "not-diabetic"]) := by
  have h := @c4_amended (List Int) (fun rows => rows.map fun r => r.headI)
    [[1], [0]]
  have h2 := h.2.1 (by decide)
  rw [h2]
  rfl

/-- C8.  The target-data generation loop of the drift notebook writes
exactly 6 files, one per week from 5 weeks ago through today in
oldest-first order, and the drift is cumulative: the same dataframe is
mutated in place, so the file written on the k-th iteration carries a
`Pregnancies` column equal to the original plus `k` (with the `Age` and
`BMI` updates composed `k` times). -/
theorem c8_target_generation {A B : Type} (today : Int) (ageStep : A → A)
    (bmiStep : B → B) (df0 : DriftFrame A B) :
    (generateTargetFiles today ageStep bmiStep df0).length = 6
    ∧ generateTargetFiles today ageStep bmiStep df0
      = [(today - 35, ⟨df0.pregnancies.map (· + 1),
            ageStep df0.age, bmiStep df0.bmi⟩),
         (today - 28, ⟨df0.pregnancies.map (· + 2),
            ageStep (ageStep df0.age), bmiStep (bmiStep df0.bmi)⟩),
         (today - 21, ⟨df0.pregnancies.map (· + 3),
            ageStep (ageStep (ageStep df0.age)),
            bmiStep (bmiStep (bmiStep df0.bmi))⟩),
         (today - 14, ⟨df0.pregnancies.map (· + 4),
            ageStep (ageStep (ageStep (ageStep df0.age))),
            bmiStep (bmiStep (bmiStep (bmiStep df0.bmi)))⟩),
         (today - 7, ⟨df0.pregnancies.map (· + 5),
            ageStep (ageStep (ageStep (ageStep (ageStep df0.age)))),
            bmiStep (bmiStep (bmiStep (bmiStep (bmiStep df0.bmi))))⟩),
         (today, ⟨df0.pregnancies.map (· + 6),
            ageStep (ageStep (ageStep (ageStep (ageStep (ageStep df0.age))))),
            bmiStep (bmiStep (bmiStep (bmiStep (bmiStep (bmiStep df0.bmi)))))⟩)] := by
  have hw : weeknos = [5, 4, 3, 2, 1, 0] := rfl
  constructor
  · simp [generateTargetFiles, hw]
  · simp only [generateTargetFiles, hw, List.foldl]
    norm_num [map_add_add]

end DP100
